import Mathlib

/- Verification model of the LoreForge AI Dungeon Master core: the semantic
memory index (src/data/vector_store.py), the session orchestrator
(src/core/dm_engine.py), the narrative generation gateway
(src/ai/ollama_client.py), the relational store (src/data/database.py) and
the D&D character model (src/core/character_manager.py). Python dicts are
modelled as association lists, wall-clock readings as explicit parameters,
and raised exceptions as explicit error values returned next to the state
the code leaves behind. -/

namespace LoreForge

/-- A Python string-valued dict (metadata map), as an association list;
lookups take the first binding. -/
abbrev Meta := List (String × String)

/-- Python `d.get(key)` on a metadata dict. -/
def mget (m : Meta) (k : String) : Option String :=
  m.lookup k

/-- Python truthiness of an optional string: `None` and the empty string are
falsy. -/
def truthy : Option String → Bool
  | some s => !s.isEmpty
  | none => false

/-- Whether the first character list starts with the second. -/
def charsStartWith : List Char → List Char → Bool
  | _, [] => true
  | [], _ :: _ => false
  | c :: cs, p :: ps => c == p && charsStartWith cs ps

/-- Substring containment on character lists. -/
def charsContain : List Char → List Char → Bool
  | [], pat => pat.isEmpty
  | c :: tail, pat => charsStartWith (c :: tail) pat || charsContain tail pat

/-- Python `pattern in s` substring test, computed on the character lists. -/
def strContains (s pat : String) : Bool :=
  charsContain s.data pat.data

/-- Python `s.lower()` (ASCII lowering, as it applies to this code base),
computed on the character list. -/
def strLower (s : String) : String :=
  String.mk (s.data.map Char.toLower)

/-- An ASCII whitespace character, for `strip`. -/
def isSpaceChar (c : Char) : Bool :=
  c == ' ' || c == '\t' || c == '\n' || c == '\r'

/-- Python `s.strip()`: whitespace removed from both ends. -/
def strStrip (s : String) : String :=
  String.mk (((s.data.dropWhile isSpaceChar).reverse.dropWhile isSpaceChar).reverse)

/-- Python `s[-n:]`: the last `n` characters, or the whole string when it is
shorter. -/
def lastChars (n : Nat) (s : String) : String :=
  String.mk (s.data.drop (s.data.length - n))

/-- Python `xs[-n:]` on a list. -/
def lastN (n : Nat) (l : List α) : List α :=
  l.drop (l.length - n)

/-- Python dict merge `\x7b**m, **updates\x7d`: the updates override. -/
def metaMerge (m updates : Meta) : Meta :=
  m.filter (fun p => (updates.lookup p.1).isNone) ++ updates

/-- The ASCII apostrophe, kept out of string literals. -/
def apos : String := String.singleton (Char.ofNat 39)

/-- One stored fragment of a ChromaDB collection: document plus metadata. -/
structure Entry where
  document : String
  metadata : Meta
deriving DecidableEq

/-- A ChromaDB collection, as an ordered association of ids to entries. -/
structure Collection where
  entries : List (String × Entry) := []
deriving DecidableEq

/-- ChromaDB `collection.add` with a single id: adding an id that is already
present leaves the collection unchanged (Chroma skips duplicate ids rather
than storing a second entry), otherwise the entry is appended. -/
def Collection.add (c : Collection) (id : String) (document : String) (metadata : Meta) : Collection :=
  if c.entries.any (fun p => p.1 == id) then c
  else { entries := c.entries ++ [(id, { document := document, metadata := metadata })] }

/-- The slice of a raw ChromaDB query result consumed by
`VectorStore._format_results`: the parallel per-query lists of documents,
metadatas, distances and ids, already unwrapped from the outer single-query
nesting. Distances are modelled as integers; only their order matters. -/
structure QueryResult where
  documents : List String
  metadatas : List Meta
  distances : List Int
  ids : List String
deriving DecidableEq

/-- An element of the list built by `VectorStore._format_results`. -/
structure CtxResult where
  id : Option String
  content : String
  metadata : Meta
  distance : Option Int
  collection : String
deriving DecidableEq

/-- `VectorStore._format_results`: zip the parallel result lists into records;
a field missing at an index becomes the Python `None` (or `\x7b\x7d` for
metadata). -/
def format_results (results : QueryResult) (collection_type : String) : List CtxResult :=
  results.documents.enum.map fun p =>
    { id := results.ids[p.1]?
      content := p.2
      metadata := (results.metadatas[p.1]?).getD []
      distance := results.distances[p.1]?
      collection := collection_type }

/-- The external collaborators the vector store and engine call out to: the
md5 hex digest, the ChromaDB add (its possible failure per document) and
query calls, the Ollama generation call, the Python `str()` rendering a
result dict receives inside an f-string, and the configured model name. -/
structure Ext where
  md5hex : String → String
  addFail : String → Option String
  query : String → String → Nat → Except String QueryResult
  queryWhere : String → String → Meta → Nat → Except String QueryResult
  generate : String → Except String String
  reprCtx : CtxResult → String
  model : String

/-- The three ChromaDB collections owned by `VectorStore`. -/
structure VectorStore where
  campaign_collection : Collection := {}
  memory_collection : Collection := {}
  character_collection : Collection := {}
deriving DecidableEq

/-- `VectorStore._generate_id`: the md5 digest of the content truncated to 8
hex characters, then the current wall-clock time formatted to seconds
(`now_fmt` is the already formatted `datetime.now().strftime` value), then
the truthy provenance ids (their last 8 characters each), joined with
underscores. -/
def generate_id (md5hex : String → String) (now_fmt : String) (content : String) (metadata : Meta) : String :=
  let content_hash := (md5hex content).take 8
  let timestamp := now_fmt
  let id_parts := [content_hash, timestamp]
  let id_parts := if truthy (mget metadata "session_id")
    then id_parts ++ ["sess_" ++ lastChars 8 ((mget metadata "session_id").getD "")]
    else id_parts
  let id_parts := if truthy (mget metadata "character_id")
    then id_parts ++ ["char_" ++ lastChars 8 ((mget metadata "character_id").getD "")]
    else id_parts
  let id_parts := if truthy (mget metadata "campaign_id")
    then id_parts ++ ["camp_" ++ lastChars 8 ((mget metadata "campaign_id").getD "")]
    else id_parts
  String.intercalate "_" id_parts

/-- `VectorStore.add_memory`: derive the id, then insert into the memory
collection with timestamp and type merged into the metadata. A failure of the
backing add is logged and re-raised, i.e. returned as an error here; `now_iso`
is the `datetime.now().isoformat()` value stored in the metadata. -/
def VectorStore.add_memory (ext : Ext) (now_fmt now_iso : String) (vs : VectorStore) (content : String) (metadata : Meta) : Except String (VectorStore × String) :=
  let memory_id := generate_id ext.md5hex now_fmt content metadata
  match ext.addFail content with
  | some e => .error e
  | none =>
      let stored := metaMerge metadata [("timestamp", now_iso), ("type", "memory")]
      .ok ({ vs with memory_collection := vs.memory_collection.add memory_id content stored }, memory_id)

/-- `VectorStore.add_campaign_content`: as `add_memory`, into the campaign
collection with type `campaign_content`. -/
def VectorStore.add_campaign_content (ext : Ext) (now_fmt now_iso : String) (vs : VectorStore) (content : String) (metadata : Meta) : Except String (VectorStore × String) :=
  let content_id := generate_id ext.md5hex now_fmt content metadata
  match ext.addFail content with
  | some e => .error e
  | none =>
      let stored := metaMerge metadata [("timestamp", now_iso), ("type", "campaign_content")]
      .ok ({ vs with campaign_collection := vs.campaign_collection.add content_id content stored }, content_id)

/-- `VectorStore.add_character_info`: as `add_memory`, into the character
collection with type `character_info`. -/
def VectorStore.add_character_info (ext : Ext) (now_fmt now_iso : String) (vs : VectorStore) (content : String) (metadata : Meta) : Except String (VectorStore × String) :=
  let char_id := generate_id ext.md5hex now_fmt content metadata
  match ext.addFail content with
  | some e => .error e
  | none =>
      let stored := metaMerge metadata [("timestamp", now_iso), ("type", "character_info")]
      .ok ({ vs with character_collection := vs.character_collection.add char_id content stored }, char_id)

/-- The sort key of `get_relevant_context`: a missing distance sorts above
every present one (the Python sort key falls back to infinity). -/
def distKey (r : CtxResult) : WithTop Int :=
  match r.distance with
  | some d => (d : WithTop Int)
  | none => ⊤

/-- Ascending-distance comparison between formatted results. -/
def distLE (r s : CtxResult) : Prop := distKey r ≤ distKey s

instance : DecidableRel distLE :=
  fun r s => inferInstanceAs (Decidable (distKey r ≤ distKey s))

instance : IsTotal CtxResult distLE :=
  ⟨fun r s => le_total (distKey r) (distKey s)⟩

instance : IsTrans CtxResult distLE :=
  ⟨fun _ _ _ h h2 => le_trans h h2⟩

/-- The body of `VectorStore.get_relevant_context`'s try block: query each
selected collection in order (campaign, memory, character), pool the
formatted results, sort ascending by distance and truncate to the limit. The
first failing query aborts the block with its exception. -/
def get_relevant_context_try (ext : Ext) (query : String) (limit : Nat) (collection_type : String) : Except String (List CtxResult) :=
  let step := fun (name tag : String) (cond : Bool) =>
    if cond then
      match ext.query name query limit with
      | .ok r => Except.ok (format_results r tag)
      | .error e => Except.error e
    else Except.ok ([] : List CtxResult)
  match step "campaigns" "campaign" (collection_type == "all" || collection_type == "campaign") with
  | .error e => .error e
  | .ok campaign_part =>
    match step "memories" "memory" (collection_type == "all" || collection_type == "memory") with
    | .error e => .error e
    | .ok memory_part =>
      match step "characters" "character" (collection_type == "all" || collection_type == "character") with
      | .error e => .error e
      | .ok character_part =>
        .ok ((((campaign_part ++ memory_part) ++ character_part).insertionSort distLE).take limit)

/-- `VectorStore.get_relevant_context`: any exception inside the try block is
logged and converted into an empty result list. -/
def get_relevant_context (ext : Ext) (query : String) (limit : Nat) (collection_type : String) : List CtxResult :=
  match get_relevant_context_try ext query limit collection_type with
  | .ok results => results
  | .error _ => []

/-- `VectorStore.get_campaign_memories`: a filtered query of the memory
collection; failures are caught and yield the empty list. -/
def get_campaign_memories (ext : Ext) (campaign_id : String) (limit : Nat) : List CtxResult :=
  match ext.queryWhere "memories" "campaign memories" [("campaign_id", campaign_id)] limit with
  | .ok r => format_results r "memory"
  | .error _ => []

/-- The character row fields the engine reads (`name`, `level`, `class`);
the dict keys are always present on a stored row, so the `.get` defaults of
the prompt builder never fire. -/
structure CharacterRec where
  name : String
  level : Int
  className : String
deriving DecidableEq

/-- The campaign row fields the engine reads. -/
structure CampaignRec where
  name : String
deriving DecidableEq

/-- A row of the `sessions` table. -/
structure SessionRow where
  id : String
  character_id : String
  campaign_id : Option String
  end_time : Option String := none
deriving DecidableEq

/-- A row of the `actions` table. -/
structure ActionRow where
  session_id : String
  action_type : String
  content : String
deriving DecidableEq

/-- The relational store (`DatabaseManager`): characters, campaigns, sessions
and the append-only action log. -/
structure Database where
  characters : List (String × CharacterRec) := []
  campaigns : List (String × CampaignRec) := []
  sessions : List SessionRow := []
  actions : List ActionRow := []
deriving DecidableEq

/-- `DatabaseManager.get_character`: the row by id, or `None`. -/
def Database.get_character (db : Database) (character_id : String) : Option CharacterRec :=
  db.characters.lookup character_id

/-- `DatabaseManager.get_campaign`: the row by id, or `None`. -/
def Database.get_campaign (db : Database) (campaign_id : String) : Option CampaignRec :=
  db.campaigns.lookup campaign_id

/-- `DatabaseManager.create_session`: insert a session row keyed by a
timestamp-derived id and return the id. -/
def Database.create_session (db : Database) (now_fmt : String) (character_id : String) (campaign_id : Option String) : Database × String :=
  let session_id := "sess_" ++ now_fmt
  ({ db with sessions := db.sessions ++
      [{ id := session_id, character_id := character_id, campaign_id := campaign_id }] },
   session_id)

/-- `DatabaseManager.end_session`: set the end time on the matching row. -/
def Database.end_session (db : Database) (now : String) (session_id : String) : Database :=
  { db with sessions := db.sessions.map fun row =>
      if row.id == session_id then { row with end_time := some now } else row }

/-- `DatabaseManager.log_action`: append the player action and the DM response
as two rows of the action log. -/
def Database.log_action (db : Database) (session_id player_action dm_response : String) : Database :=
  { db with actions := db.actions ++
      [{ session_id := session_id, action_type := "player_action", content := player_action },
       { session_id := session_id, action_type := "dm_response", content := dm_response }] }

/-- A dice request extracted by the response classifier. -/
structure DiceReq where
  type : String
  reason : String
deriving DecidableEq

/-- A DM response dict. `action_required` and `dice_needed` are `Option`s
because the engine's own responses carry only `narrative` and `metadata`:
`none` models an absent key. -/
structure DMResponse where
  narrative : String
  action_required : Option Bool := none
  dice_needed : Option (List DiceReq) := none
  metadata : Meta := []
deriving DecidableEq

/-- One entry of the in-memory short-term session memory. -/
structure MemoryEntry where
  type : String
  content : String
  timestamp : Int
  context : Meta := []
  metadata : Meta := []
deriving DecidableEq

/-- The engine's in-memory current-session record. -/
structure Session where
  id : String
  character_id : String
  campaign_id : Option String
  start_time : Int
deriving DecidableEq

/-- The mutable state of `DMEngine` after initialization. The empty
`campaign_context` dict is modelled as `none`. -/
structure DMEngineState where
  current_session : Option Session := none
  active_character : Option CharacterRec := none
  campaign_context : Option CampaignRec := none
  session_memory : List MemoryEntry := []
  campaign_memory : List CtxResult := []
  vector_store : VectorStore := {}
deriving DecidableEq

/-- The exceptions `DMEngine` lets escape: Python `ValueError`,
`RuntimeError`, and a propagated vector-store exception. -/
inductive DMError where
  | valueError : String → DMError
  | runtimeError : String → DMError
  | storeError : String → DMError
deriving DecidableEq

namespace DMEngine

/-- The fixed system-instruction block that opens every DM prompt
(`DMEngine._build_dm_prompt`). -/
def dm_system_prompt : String :=
  "You are an expert Dungeon Master for D&D 5th Edition. You are creative, fair, and focused on creating an engaging story. \n\nKey principles:\n- Follow D&D 5e rules accurately\n- Create vivid, immersive descriptions\n- Respond to player actions meaningfully\n- Ask for dice rolls when appropriate\n- Keep the story moving forward\n- Remember that player choices have permanent consequences\n\nCurrent situation:"

/-- The fixed closing instruction appended after the current action. -/
def provide_response_line : String := "\nProvide a detailed DM response:"

/-- The current-action line (the Python f-string has an apostrophe in it). -/
def current_action_line (action : String) : String :=
  "\nPlayer" ++ apos ++ "s current action: " ++ action

/-- The character-summary part of the prompt, present when a character is
active. -/
def character_part (st : DMEngineState) : List String :=
  match st.active_character with
  | some c => ["Player Character: " ++ c.name ++ " (Level " ++ toString c.level ++ " " ++ c.className ++ ")"]
  | none => []

/-- The campaign-summary part of the prompt, present when campaign context is
loaded. -/
def campaign_part (st : DMEngineState) : List String :=
  match st.campaign_context with
  | some camp => ["Campaign: " ++ camp.name]
  | none => []

/-- The retrieved-fragment part of the prompt: the header and the last three
retrieved results, each rendered through the f-string. -/
def context_part (ext : Ext) (context : List CtxResult) : List String :=
  if context.isEmpty then []
  else "Recent events and relevant context:" :: (lastN 3 context).map (fun ctx => "- " ++ ext.reprCtx ctx)

/-- The short-term-memory part of the prompt: the header and the last five
entries, rendered by type (entries of any other type are skipped). -/
def memory_part (st : DMEngineState) : List String :=
  if st.session_memory.isEmpty then []
  else "\nRecent actions in this session:" ::
    (lastN 5 st.session_memory).filterMap (fun memory =>
      if memory.type == "player_action" then some ("Player: " ++ memory.content)
      else if memory.type == "dm_response" then some ("DM: " ++ memory.content)
      else none)

/-- `DMEngine._build_dm_prompt` before the final newline join: the ordered
list of prompt parts accumulated by the successive appends. -/
def build_dm_prompt_parts (ext : Ext) (st : DMEngineState) (action : String) (context : List CtxResult) : List String :=
  dm_system_prompt ::
    (character_part st ++ campaign_part st ++ context_part ext context ++ memory_part st ++
      [current_action_line action, provide_response_line])

/-- `DMEngine._build_dm_prompt`: the parts joined with newlines. -/
def build_dm_prompt (ext : Ext) (st : DMEngineState) (action : String) (context : List CtxResult) : String :=
  String.intercalate "\n" (build_dm_prompt_parts ext st action context)

/-- The fixed fallback narrative substituted when generation fails inside
`DMEngine._generate_dm_response`. -/
def engine_fallback_narrative : String := "The DM pauses, deep in thought about your action..."

/-- `DMEngine._generate_dm_response`: build the prompt, call the generation
backend, and on failure substitute the fixed fallback narrative. Both
branches return a response carrying only `narrative` and `metadata` (no
`action_required` or `dice_needed` key). The Ollama client is modelled as
present, as it is after `initialize`. -/
def generate_dm_response (ext : Ext) (st : DMEngineState) (action : String) (context : List CtxResult) : DMResponse :=
  let prompt := build_dm_prompt ext st action context
  match ext.generate prompt with
  | .ok response =>
      { narrative := response,
        metadata := [("model_used", ext.model), ("context_used", toString context.length)] }
  | .error e =>
      { narrative := engine_fallback_narrative, metadata := [("error", e)] }

/-- `DMEngine.create_session`. The character lookup result is assigned to
`active_character` before the not-found check, so a failed lookup overwrites
that field and then raises `ValueError`. On success the campaign context is
loaded when it resolves, the session row is created, and
`_load_session_context` appends campaign memories when the session has a
truthy campaign id (its recent-sessions query result is unused). `now_fmt`
is the session-id timestamp, `t0` the event-loop clock reading. -/
def create_session (ext : Ext) (now_fmt : String) (t0 : Int) (st : DMEngineState) (db : Database)
    (character_id : String) (campaign_id : Option String) :
    DMEngineState × Database × Except DMError String :=
  match db.get_character character_id with
  | none =>
      ({ st with active_character := none }, db,
       .error (.valueError ("Character " ++ character_id ++ " not found")))
  | some c =>
    let st := { st with active_character := some c }
    let st := match campaign_id with
      | some cid =>
          if cid.isEmpty then st
          else match db.get_campaign cid with
            | some campaign_data => { st with campaign_context := some campaign_data }
            | none => st
      | none => st
    let db_sid := db.create_session now_fmt character_id campaign_id
    let sess : Session :=
      { id := db_sid.2, character_id := character_id, campaign_id := campaign_id, start_time := t0 }
    let st := { st with current_session := some sess }
    let st := match campaign_id with
      | some cid =>
          if cid.isEmpty then st
          else { st with campaign_memory := st.campaign_memory ++ get_campaign_memories ext cid 10 }
      | none => st
    (st, db_sid.1, .ok db_sid.2)

/-- `DMEngine.process_player_action`. `t1`/`t2` are the event-loop clock
readings for the two short-term-memory entries, `now_fmt`/`now_iso` the
wall-clock values the vector-store write uses. A raised exception is
returned in the error component together with the state exactly as the
method leaves it. -/
def process_player_action (ext : Ext) (t1 t2 : Int) (now_fmt now_iso : String)
    (st : DMEngineState) (db : Database) (action : String) (context : Meta) :
    DMEngineState × Database × Except DMError DMResponse :=
  match st.current_session with
  | none => (st, db, .error (.runtimeError "No active session"))
  | some sess =>
    let action_entry : MemoryEntry :=
      { type := "player_action", content := action, timestamp := t1, context := context }
    let st := { st with session_memory := st.session_memory ++ [action_entry] }
    let relevant_context := get_relevant_context ext action 5 "all"
    let dm_response := generate_dm_response ext st action relevant_context
    let response_entry : MemoryEntry :=
      { type := "dm_response", content := dm_response.narrative, timestamp := t2,
        metadata := dm_response.metadata }
    let st := { st with session_memory := st.session_memory ++ [response_entry] }
    match st.vector_store.add_memory ext now_fmt now_iso
        ("Player: " ++ action ++ " | DM: " ++ dm_response.narrative)
        [("session_id", sess.id), ("character_id", sess.character_id), ("action_type", "interaction")] with
    | .error e => (st, db, .error (.storeError e))
    | .ok vs_id =>
        let st := { st with vector_store := vs_id.1 }
        let db := db.log_action sess.id action dm_response.narrative
        (st, db, .ok dm_response)

/-- `DMEngine.end_session`: a no-op without an active session; otherwise the
session row receives its end time and all in-memory session state is
cleared. -/
def end_session (now : String) (st : DMEngineState) (db : Database) : DMEngineState × Database :=
  match st.current_session with
  | none => (st, db)
  | some sess =>
      ({ st with current_session := none, active_character := none,
                 session_memory := [], campaign_memory := [], campaign_context := none },
       db.end_session now sess.id)

end DMEngine

namespace OllamaClient

/-- The optional context dict accepted by `OllamaClient.generate_dm_response`;
`none` models a missing or empty (falsy) dict. -/
structure GenCtx where
  character : Option String := none
  location : Option String := none
  recent_events : Option String := none
deriving DecidableEq

/-- `OllamaClient._build_dm_prompt`: the enhanced DM prompt around the user
prompt. -/
def build_dm_prompt (user_prompt : String) (context : Option GenCtx) : String :=
  let parts : List String := [
    "You are an expert Dungeon Master for D&D 5th Edition. You create immersive, engaging narratives and follow the rules accurately.",
    "",
    "Response Format:",
    "- Provide vivid, descriptive narrative",
    "- If dice rolls are needed, specify them clearly (e.g., " ++ apos ++ "Roll a d20 for Investigation" ++ apos ++ ")",
    "- Keep responses engaging but not overly long",
    "- Follow D&D 5e rules precisely",
    "- Remember that player choices have permanent consequences",
    ""]
  let parts := match context with
    | some ctx =>
      let parts := if truthy ctx.character then parts ++ ["Player Character: " ++ ctx.character.getD ""] else parts
      let parts := if truthy ctx.location then parts ++ ["Current Location: " ++ ctx.location.getD ""] else parts
      let parts := if truthy ctx.recent_events then parts ++ ["Recent Events: " ++ ctx.recent_events.getD ""] else parts
      parts ++ [""]
    | none => parts
  String.intercalate "\n" (parts ++ ["Player Action/Question: " ++ user_prompt, "", "Provide your DM response:"])

/-- The fixed dice-roll keyword patterns of `OllamaClient._parse_dm_response`. -/
def dice_patterns : List String :=
  ["roll a d", "make a", "roll for", "d20", "d12", "d10", "d8", "d6", "d4"]

/-- The fixed immediate-action keywords of `OllamaClient._parse_dm_response`. -/
def action_keywords : List String :=
  ["roll", "choose", "decide", "what do you", "make a"]

/-- The dice-extraction loop of `OllamaClient._parse_dm_response`: the scan
stops at the first matching pattern, and a (single, d20) entry is appended
only when the lowercased response mentions `d20` itself. -/
def classify_dice (lower : String) : List DiceReq :=
  match dice_patterns.find? (fun pattern => strContains lower (strLower pattern)) with
  | some _ =>
      if strContains lower "d20" then [{ type := "d20", reason := "skill check or attack" }] else []
  | none => []

/-- `OllamaClient._parse_dm_response`: keyword classification of the raw
response text into the structured response dict. -/
def parse_dm_response (model : String) (response : String) : DMResponse :=
  let lower := strLower response
  let dice_needed := classify_dice lower
  let action_required := action_keywords.any (fun keyword => strContains lower keyword)
  { narrative := strStrip response,
    action_required := some action_required,
    dice_needed := some dice_needed,
    metadata := [("model", model), ("length", toString response.length),
                 ("has_dice_request", toString (!dice_needed.isEmpty))] }

/-- The fixed fallback narrative of `OllamaClient.generate_dm_response`. -/
def client_fallback_narrative : String := "The DM pauses, deep in thought..."

/-- `OllamaClient.generate_dm_response`: generate against the enhanced prompt
and classify the result; on any failure return the structured fallback with
`action_required = False` and an empty `dice_needed` list. -/
def generate_dm_response (ext : Ext) (prompt : String) (context : Option GenCtx) : DMResponse :=
  let dm_prompt := build_dm_prompt prompt context
  match ext.generate dm_prompt with
  | .ok response => parse_dm_response ext.model response
  | .error e =>
      { narrative := client_fallback_narrative,
        action_required := some false,
        dice_needed := some [],
        metadata := [("error", e)] }

end OllamaClient

/-- The `AbilityScores` dataclass with its Python field defaults. -/
structure AbilityScores where
  strength : Int := 10
  dexterity : Int := 10
  constitution : Int := 10
  intelligence : Int := 10
  wisdom : Int := 10
  charisma : Int := 10
deriving DecidableEq

/-- Python `getattr(self, ability.lower())`: the named score, or `none` for an
unknown attribute name (`AttributeError`). -/
def AbilityScores.attr (a : AbilityScores) (ability : String) : Option Int :=
  match strLower ability with
  | "strength" => some a.strength
  | "dexterity" => some a.dexterity
  | "constitution" => some a.constitution
  | "intelligence" => some a.intelligence
  | "wisdom" => some a.wisdom
  | "charisma" => some a.charisma
  | _ => none

/-- `AbilityScores.get_modifier`: `(score - 10) // 2` with Python floor
division. -/
def AbilityScores.get_modifier (a : AbilityScores) (ability : String) : Option Int :=
  (a.attr ability).map fun score => Int.fdiv (score - 10) 2

/-- A concrete collaborator bundle for the closed scenarios: identity content
hash, successful adds, failing queries and failing generation. -/
def exExt : Ext :=
  { md5hex := fun s => s
    addFail := fun _ => none
    query := fun _ _ _ => .error "index unavailable"
    queryWhere := fun _ _ _ _ => .error "index unavailable"
    generate := fun _ => .error "model offline"
    reprCtx := fun r => r.content
    model := "llama3" }

/-- A collaborator bundle whose generation succeeds but whose semantic-store
add fails. -/
def extC4 : Ext :=
  { exExt with generate := fun _ => .ok "You see a dusty corridor.",
               addFail := fun _ => some "vector store down" }

/-- A collaborator bundle whose every collection query raises. -/
def extC6 : Ext := { exExt with query := fun _ _ _ => .error "embedding failure" }

/-- A one-hit campaign-collection query result. -/
def qrCampaign : QueryResult :=
  { documents := ["Elandra the Sage is a wise hermit"],
    metadatas := [[("campaign_id", "camp_1")]], distances := [7], ids := ["f1"] }

/-- A one-hit memory-collection query result. -/
def qrMemory : QueryResult :=
  { documents := ["Player: hello | DM: greetings"],
    metadatas := [[]], distances := [3], ids := ["f2"] }

/-- A one-hit character-collection query result. -/
def qrCharacter : QueryResult :=
  { documents := ["Aria is an elf wizard"],
    metadatas := [[]], distances := [5], ids := ["f3"] }

/-- A collaborator bundle whose three collection queries succeed with one hit
each. -/
def extC2Query (name : String) (_text : String) (_n : Nat) : Except String QueryResult :=
  if name == "campaigns" then .ok qrCampaign
  else if name == "memories" then .ok qrMemory
  else .ok qrCharacter

/-- The bundle of collaborators built around `extC2Query`. -/
def extC2 : Ext := { exExt with query := extC2Query }

/-- A stored character row. -/
def chr0 : CharacterRec := { name := "Aria", level := 1, className := "Wizard" }

/-- An active in-memory session record. -/
def sessA : Session :=
  { id := "sess_20240101_120000", character_id := "char_1", campaign_id := none, start_time := 0 }

/-- An engine state with an active session and character. -/
def stActive : DMEngineState := { current_session := some sessA, active_character := some chr0 }

/-- A relational store holding one character. -/
def db0 : Database := { characters := [("char_1", chr0)] }

/-- Runs `add_memory` twice in sequence with the given formatted wall-clock
timestamps and reports the two fragment ids together with the final number of
entries in the memory collection. -/
def addTwiceSummary (ext : Ext) (fmt1 fmt2 : String) (vs : VectorStore) (content : String) (metadata : Meta) : Option (String × String × Nat) :=
  match vs.add_memory ext fmt1 "iso1" content metadata with
  | .error _ => none
  | .ok v1 =>
    match v1.1.add_memory ext fmt2 "iso2" content metadata with
    | .error _ => none
    | .ok v2 => some (v1.2, v2.2, v2.1.memory_collection.entries.length)

/-- The `action_required` and `dice_needed` fields of a normally returned
process_player_action response. -/
def responseFields : Except DMError DMResponse → Option (Option Bool × Option (List DiceReq))
  | .ok r => some (r.action_required, r.dice_needed)
  | .error _ => none

/-- The store a successful add_memory leaves behind. -/
def memAfterAdd (ext : Ext) (now_fmt iso : String) (vs : VectorStore) (content : String) (metadata : Meta) : VectorStore :=
  { vs with memory_collection := vs.memory_collection.add (generate_id ext.md5hex now_fmt content metadata) content (metaMerge metadata [("timestamp", iso), ("type", "memory")]) }

/-- The store a successful add_campaign_content leaves behind. -/
def campAfterAdd (ext : Ext) (now_fmt iso : String) (vs : VectorStore) (content : String) (metadata : Meta) : VectorStore :=
  { vs with campaign_collection := vs.campaign_collection.add (generate_id ext.md5hex now_fmt content metadata) content (metaMerge metadata [("timestamp", iso), ("type", "campaign_content")]) }

/-- The store a successful add_character_info leaves behind. -/
def charAfterAdd (ext : Ext) (now_fmt iso : String) (vs : VectorStore) (content : String) (metadata : Meta) : VectorStore :=
  { vs with character_collection := vs.character_collection.add (generate_id ext.md5hex now_fmt content metadata) content (metaMerge metadata [("timestamp", iso), ("type", "character_info")]) }

/-- The id stays present in a collection after an add of that id. -/
theorem Collection.add_any_self (c : Collection) (id document : String) (metadata : Meta) :
    ((c.add id document metadata).entries.any fun p => p.1 == id) = true := by
  unfold Collection.add
  split
  · assumption
  · simp

/-- Adding an id that is already present is a no-op. -/
theorem Collection.add_of_mem (c : Collection) (id document : String) (metadata : Meta)
    (h : (c.entries.any fun p => p.1 == id) = true) :
    c.add id document metadata = c := by
  unfold Collection.add
  rw [if_pos h]

/-- Two consecutive adds of the same id collapse to the first. -/
theorem Collection.add_add_same (c : Collection) (id d1 d2 : String) (m1 m2 : Meta) :
    (c.add id d1 m1).add id d2 m2 = c.add id d1 m1 :=
  Collection.add_of_mem _ _ _ _ (Collection.add_any_self c id d1 m1)

/-- C1 (counterexample): the fragment id is derived from the wall-clock second
as well as from content and metadata, so two add_memory calls with identical
content and metadata performed at different formatted timestamps return two
different fragment ids and leave two entries in the store, against the
claimed idempotence. -/
theorem c1_counterexample :
    addTwiceSummary exExt "20240101_120000" "20240101_120001" {}
        "The party meets Elandra the Sage" [] =
      some ("The part_20240101_120000", "The part_20240101_120001", 2) ∧
    ("The part_20240101_120000" : String) ≠ "The part_20240101_120001" := by
  exact ⟨rfl, by decide⟩

/-- C1 (amended): insertion is idempotent only within one formatted
wall-clock second. When two calls of the same add operation (add_memory,
add_campaign_content or add_character_info) carry identical content and
metadata and see the same formatted timestamp, the second call returns the
same fragment id and leaves the store exactly as the first call left it; in
particular a first add into an empty memory collection stores exactly one
entry. -/
theorem add_memory_repeat (ext : Ext) (now_fmt iso1 iso2 : String) (vs : VectorStore)
    (content : String) (metadata : Meta) (h : ext.addFail content = none) :
    vs.add_memory ext now_fmt iso1 content metadata =
      .ok (memAfterAdd ext now_fmt iso1 vs content metadata,
           generate_id ext.md5hex now_fmt content metadata) ∧
    (memAfterAdd ext now_fmt iso1 vs content metadata).add_memory ext now_fmt iso2 content metadata =
      .ok (memAfterAdd ext now_fmt iso1 vs content metadata,
           generate_id ext.md5hex now_fmt content metadata) := by
  constructor
  · simp [VectorStore.add_memory, memAfterAdd, h]
  · simp [VectorStore.add_memory, memAfterAdd, h, Collection.add_add_same]

/-- A repeated add_campaign_content in the same formatted second is a no-op
returning the same id. -/
theorem add_campaign_repeat (ext : Ext) (now_fmt iso1 iso2 : String) (vs : VectorStore)
    (content : String) (metadata : Meta) (h : ext.addFail content = none) :
    vs.add_campaign_content ext now_fmt iso1 content metadata =
      .ok (campAfterAdd ext now_fmt iso1 vs content metadata,
           generate_id ext.md5hex now_fmt content metadata) ∧
    (campAfterAdd ext now_fmt iso1 vs content metadata).add_campaign_content ext now_fmt iso2 content metadata =
      .ok (campAfterAdd ext now_fmt iso1 vs content metadata,
           generate_id ext.md5hex now_fmt content metadata) := by
  constructor
  · simp [VectorStore.add_campaign_content, campAfterAdd, h]
  · simp [VectorStore.add_campaign_content, campAfterAdd, h, Collection.add_add_same]

/-- A repeated add_character_info in the same formatted second is a no-op
returning the same id. -/
theorem add_character_repeat (ext : Ext) (now_fmt iso1 iso2 : String) (vs : VectorStore)
    (content : String) (metadata : Meta) (h : ext.addFail content = none) :
    vs.add_character_info ext now_fmt iso1 content metadata =
      .ok (charAfterAdd ext now_fmt iso1 vs content metadata,
           generate_id ext.md5hex now_fmt content metadata) ∧
    (charAfterAdd ext now_fmt iso1 vs content metadata).add_character_info ext now_fmt iso2 content metadata =
      .ok (charAfterAdd ext now_fmt iso1 vs content metadata,
           generate_id ext.md5hex now_fmt content metadata) := by
  constructor
  · simp [VectorStore.add_character_info, charAfterAdd, h]
  · simp [VectorStore.add_character_info, charAfterAdd, h, Collection.add_add_same]

theorem add_same_second_idempotent (ext : Ext) (now_fmt iso1 iso2 : String) (vs : VectorStore)
    (content : String) (metadata : Meta) (h : ext.addFail content = none) :
    (∃ vs1 fid, vs.add_memory ext now_fmt iso1 content metadata = .ok (vs1, fid) ∧
       vs1.add_memory ext now_fmt iso2 content metadata = .ok (vs1, fid)) ∧
    (∃ vs1 fid, vs.add_campaign_content ext now_fmt iso1 content metadata = .ok (vs1, fid) ∧
       vs1.add_campaign_content ext now_fmt iso2 content metadata = .ok (vs1, fid)) ∧
    (∃ vs1 fid, vs.add_character_info ext now_fmt iso1 content metadata = .ok (vs1, fid) ∧
       vs1.add_character_info ext now_fmt iso2 content metadata = .ok (vs1, fid)) ∧
    (vs.memory_collection = {} →
      ∀ vs1 fid, vs.add_memory ext now_fmt iso1 content metadata = .ok (vs1, fid) →
        vs1.memory_collection.entries.length = 1) := by
  refine ⟨⟨_, _, add_memory_repeat ext now_fmt iso1 iso2 vs content metadata h⟩,
          ⟨_, _, add_campaign_repeat ext now_fmt iso1 iso2 vs content metadata h⟩,
          ⟨_, _, add_character_repeat ext now_fmt iso1 iso2 vs content metadata h⟩, ?_⟩
  intro hemp vs1 fid hadd
  rw [(add_memory_repeat ext now_fmt iso1 iso2 vs content metadata h).1] at hadd
  have hv : vs1 = memAfterAdd ext now_fmt iso1 vs content metadata := by
    cases hadd
    rfl
  rw [hv]
  simp [memAfterAdd, hemp, Collection.add]

/-- Witness for the amended C1 theorem at a concrete store and content. -/
theorem add_same_second_idempotent_witness :
    exExt.addFail "Greetings traveler" = none ∧
    (∃ vs1 fid,
      VectorStore.add_memory exExt "20240101_120000" "i1" {} "Greetings traveler" [] = .ok (vs1, fid) ∧
      VectorStore.add_memory exExt "20240101_120000" "i2" vs1 "Greetings traveler" [] = .ok (vs1, fid)) :=
  ⟨rfl, (add_same_second_idempotent exExt "20240101_120000" "i1" "i2" {} "Greetings traveler" [] rfl).1⟩

/-- C6 (counterexample): with every collection query raising, the semantic
query is not surfaced to the caller: the try block fails with the embedding
failure and get_relevant_context converts it into a silently returned empty
list. -/
theorem c6_counterexample :
    get_relevant_context_try extC6 "Who is Elandra?" 5 "all" = .error "embedding failure" ∧
    get_relevant_context extC6 "Who is Elandra?" 5 "all" = [] := by
  exact ⟨rfl, rfl⟩

/-- C6 (amended): a backing-store failure during add_memory is surfaced as an
exception to the caller, but a failure during the query of
get_relevant_context is caught: the try block's error never escapes and the
caller receives an empty list instead. -/
theorem add_surfaces_query_swallowed (ext : Ext) (fmt iso q : String) (k : Nat) (vs : VectorStore)
    (content : String) (metadata : Meta) (e e2 : String)
    (ha : ext.addFail content = some e)
    (hq : ext.query "campaigns" q k = .error e2) :
    vs.add_memory ext fmt iso content metadata = .error e ∧
    get_relevant_context_try ext q k "all" = .error e2 ∧
    get_relevant_context ext q k "all" = [] := by
  refine ⟨?_, ?_, ?_⟩
  · simp [VectorStore.add_memory, ha]
  · simp [get_relevant_context_try, hq]
  · simp [get_relevant_context, get_relevant_context_try, hq]

/-- Witness for the amended C6 theorem at a concrete collaborator bundle. -/
theorem add_surfaces_query_swallowed_witness :
    VectorStore.add_memory extC4 "f" "i" {} "hello there" [] = .error "vector store down" ∧
    get_relevant_context extC4 "torch" 5 "all" = [] := by
  have h := add_surfaces_query_swallowed extC4 "f" "i" "torch" 5 {} "hello there" []
    "vector store down" "index unavailable" rfl rfl
  exact ⟨h.1, h.2.2⟩

/-- The last and second-to-last elements of a list of the shape
`a :: (l ++ [x, y])`. -/
theorem last_two_of_shape (a x y : α) (l : List α) :
    (a :: (l ++ [x, y])).getLast? = some y ∧
    (a :: (l ++ [x, y])).dropLast.getLast? = some x := by
  have h : a :: (l ++ [x, y]) = ((a :: l) ++ [x]) ++ [y] := by simp
  rw [h, List.getLast?_concat, List.dropLast_concat, List.getLast?_concat]
  exact ⟨rfl, rfl⟩

/-- C7 (counterexample): the current player action is not the final element of
the assembled prompt; the fixed closing instruction line comes after it. -/
theorem c7_counterexample :
    (DMEngine.build_dm_prompt_parts exExt {} "I search the room" []).getLast? ≠
      some (DMEngine.current_action_line "I search the room") ∧
    (DMEngine.build_dm_prompt_parts exExt {} "I search the room" []).getLast? =
      some DMEngine.provide_response_line := by
  exact ⟨by decide, rfl⟩

/-- C7 (amended): in every assembled prompt the fixed system-instruction
block is the first element, preceding all dynamic content, and the current
player action is the last element before the fixed closing instruction,
which is the final element. -/
theorem prompt_part_order (ext : Ext) (st : DMEngineState) (action : String) (context : List CtxResult) :
    (DMEngine.build_dm_prompt_parts ext st action context).head? =
      some DMEngine.dm_system_prompt ∧
    (DMEngine.build_dm_prompt_parts ext st action context).getLast? =
      some DMEngine.provide_response_line ∧
    (DMEngine.build_dm_prompt_parts ext st action context).dropLast.getLast? =
      some (DMEngine.current_action_line action) := by
  unfold DMEngine.build_dm_prompt_parts
  have h := last_two_of_shape DMEngine.dm_system_prompt
    (DMEngine.current_action_line action) DMEngine.provide_response_line
    (DMEngine.character_part st ++ DMEngine.campaign_part st ++
      DMEngine.context_part ext context ++ DMEngine.memory_part st)
  exact ⟨rfl, h.1, h.2⟩

/-- C8 (counterexample): create_session with an unresolvable character id
raises the not-found error yet the orchestrator's active character has been
overwritten to None by the failed lookup, so the session state is not left
unchanged. -/
theorem c8_counterexample :
    (DMEngine.create_session exExt "20240101_130000" 0 stActive db0 "ghost" none).2.2 =
      .error (.valueError "Character ghost not found") ∧
    (DMEngine.create_session exExt "20240101_130000" 0 stActive db0 "ghost" none).1.active_character
      = none ∧
    stActive.active_character = some chr0 := by
  exact ⟨rfl, rfl, rfl⟩

/-- C8 (amended): when the character id does not resolve, create_session
fails with the not-found error, creates no session record, and leaves the
current session, campaign context and short-term memory unchanged, but the
active character is overwritten with the failed lookup result (None) before
the error is raised. -/
theorem create_session_notfound (ext : Ext) (fmt : String) (t0 : Int) (st : DMEngineState)
    (db : Database) (character_id : String) (campaign_id : Option String)
    (h : db.get_character character_id = none) :
    DMEngine.create_session ext fmt t0 st db character_id campaign_id =
      ({ st with active_character := none }, db,
       .error (.valueError ("Character " ++ character_id ++ " not found"))) := by
  simp [DMEngine.create_session, h]

/-- Witness for the amended C8 theorem at a concrete state and store. -/
theorem create_session_notfound_witness :
    DMEngine.create_session exExt "20240101_130000" 0 stActive db0 "ghost" none =
      ({ stActive with active_character := none }, db0,
       .error (.valueError ("Character " ++ "ghost" ++ " not found"))) :=
  create_session_notfound exExt "20240101_130000" 0 stActive db0 "ghost" none rfl

/-- C9 (confirmed): for every ability score in the valid range 1 to 30 the
computed modifier is the floor of (score - 10) / 2, negative results
included. -/
theorem get_modifier_floor (a : AbilityScores) (ability : String) (score : Int)
    (hattr : a.attr ability = some score) (_h1 : 1 ≤ score) (_h2 : score ≤ 30) :
    a.get_modifier ability = some ⌊((score : ℚ) - 10) / 2⌋ := by
  unfold AbilityScores.get_modifier
  rw [hattr]
  have hfd : Int.fdiv (score - 10) 2 = (score - 10) / 2 :=
    Int.fdiv_eq_ediv _ (by decide)
  have hfl : ⌊((score : ℚ) - 10) / 2⌋ = (score - 10) / 2 := by
    rw [show ((score : ℚ) - 10) = ((score - 10 : Int) : ℚ) by push_cast; ring,
        show (2 : ℚ) = ((2 : ℕ) : ℚ) by norm_num,
        Rat.floor_intCast_div_natCast]
    norm_num
  show some ((score - 10).fdiv 2) = some ⌊((score : ℚ) - 10) / 2⌋
  rw [hfd, hfl]

/-- Witness for C9 at the spec's example scores: 10 gives 0, 8 gives -1,
15 gives +2 and 3 gives -4. -/
theorem get_modifier_floor_witness :
    AbilityScores.get_modifier {} "wisdom" = some ⌊(((10 : Int) : ℚ) - 10) / 2⌋ ∧
    AbilityScores.get_modifier { strength := 8 } "strength" = some (-1) ∧
    AbilityScores.get_modifier { dexterity := 15 } "dexterity" = some 2 ∧
    AbilityScores.get_modifier { charisma := 3 } "charisma" = some (-4) := by
  refine ⟨get_modifier_floor {} "wisdom" 10 rfl (by decide) (by decide), ?_, ?_, ?_⟩
  · rw [get_modifier_floor { strength := 8 } "strength" 8 rfl (by decide) (by decide)]
    norm_num
  · rw [get_modifier_floor { dexterity := 15 } "dexterity" 15 rfl (by decide) (by decide)]
    norm_num
  · rw [get_modifier_floor { charisma := 3 } "charisma" 3 rfl (by decide) (by decide)]
    norm_num

/-- C10 (confirmed): the classifier's dice_needed list has at most one entry,
any entry it holds is of type d20, and a response without the substring d20
yields an empty list even when another dice pattern matched. -/
theorem parse_dice_only_d20 (model response : String) :
    (OllamaClient.parse_dm_response model response).dice_needed =
      some (OllamaClient.classify_dice (strLower response)) ∧
    (OllamaClient.classify_dice (strLower response)).length ≤ 1 ∧
    (∀ d ∈ OllamaClient.classify_dice (strLower response), d.type = "d20") ∧
    (strContains (strLower response) "d20" = false →
      OllamaClient.classify_dice (strLower response) = []) := by
  refine ⟨rfl, ?_, ?_, ?_⟩ <;>
    · unfold OllamaClient.classify_dice
      cases hf : (OllamaClient.dice_patterns.find? fun pattern =>
          strContains (strLower response) (strLower pattern)) <;>
        by_cases hd : strContains (strLower response) "d20" = true <;>
        simp [hd]

/-- C2 (confirmed): when the three partition queries succeed, querying with
partition all pools the formatted results of the campaign, memory and
character collections, returns them sorted in ascending order of distance,
and truncates the pooled list to at most the limit. -/
theorem get_relevant_context_all_sorted (ext : Ext) (q : String) (limit : Nat)
    (cr mr xr : QueryResult)
    (hc : ext.query "campaigns" q limit = .ok cr)
    (hm : ext.query "memories" q limit = .ok mr)
    (hx : ext.query "characters" q limit = .ok xr) :
    List.Sorted distLE (get_relevant_context ext q limit "all") ∧
    (get_relevant_context ext q limit "all").length ≤ limit ∧
    ∀ r ∈ get_relevant_context ext q limit "all",
      r ∈ format_results cr "campaign" ∨ r ∈ format_results mr "memory" ∨
        r ∈ format_results xr "character" := by
  have hrun : get_relevant_context ext q limit "all" =
      (((format_results cr "campaign" ++ format_results mr "memory") ++
          format_results xr "character").insertionSort distLE).take limit := by
    simp [get_relevant_context, get_relevant_context_try, hc, hm, hx]
  refine ⟨?_, ?_, ?_⟩ <;> rw [hrun]
  · exact List.Pairwise.sublist (List.take_sublist _ _) (List.sorted_insertionSort distLE _)
  · exact List.length_take_le _ _
  · intro r hr
    have hmem := (List.perm_insertionSort distLE _).mem_iff.mp (List.take_subset _ _ hr)
    simp only [List.mem_append] at hmem
    tauto

/-- Witness for C2 at a concrete collaborator bundle with one hit per
partition and a limit of two. -/
theorem get_relevant_context_all_sorted_witness :
    List.Sorted distLE (get_relevant_context extC2 "Who is Elandra?" 2 "all") ∧
    (get_relevant_context extC2 "Who is Elandra?" 2 "all").length ≤ 2 :=
  ⟨(get_relevant_context_all_sorted extC2 "Who is Elandra?" 2 qrCampaign qrMemory qrCharacter
      rfl rfl rfl).1,
   (get_relevant_context_all_sorted extC2 "Who is Elandra?" 2 qrCampaign qrMemory qrCharacter
      rfl rfl rfl).2.1⟩

/-- C3 (counterexample): with the generation backend failing, process_action
returns normally with the fixed fallback narrative, but the returned response
carries no action_required and no dice_needed key at all, rather than
action_required false with an empty dice_needed list. -/
theorem c3_counterexample :
    responseFields
        (DMEngine.process_player_action exExt 0 1 "20240101_120001" "iso"
          stActive db0 "I search the room" []).2.2 =
      some (none, none) ∧
    (some ((none : Option Bool), (none : Option (List DiceReq))) ≠
      some (some false, some [])) := by
  exact ⟨rfl, by decide⟩

/-- C3 (amended): under a generation failure process_action does not raise
and returns the fixed non-empty fallback narrative, but its response carries
neither an action_required nor a dice_needed field; the structured fallback
with action_required false and an empty dice_needed list is produced by
OllamaClient.generate_dm_response, which the engine does not call. -/
theorem generation_failure_fallback (ext : Ext) (t1 t2 : Int) (fmt iso : String)
    (st : DMEngineState) (db : Database) (sess : Session) (action : String) (context : Meta)
    (e : String)
    (hs : st.current_session = some sess)
    (hg : ∀ p, ext.generate p = .error e)
    (ha : ∀ c, ext.addFail c = none) :
    (DMEngine.process_player_action ext t1 t2 fmt iso st db action context).2.2 =
      .ok { narrative := DMEngine.engine_fallback_narrative, metadata := [("error", e)] } ∧
    DMEngine.engine_fallback_narrative ≠ "" ∧
    (∀ prompt genctx, OllamaClient.generate_dm_response ext prompt genctx =
      { narrative := OllamaClient.client_fallback_narrative, action_required := some false,
        dice_needed := some [], metadata := [("error", e)] }) := by
  refine ⟨?_, by decide, ?_⟩
  · simp [DMEngine.process_player_action, hs, DMEngine.generate_dm_response, hg,
      VectorStore.add_memory, ha]
  · intro prompt genctx
    simp [OllamaClient.generate_dm_response, hg]

/-- Witness for the amended C3 theorem at a concrete failing backend. -/
theorem generation_failure_fallback_witness :
    (DMEngine.process_player_action exExt 0 1 "20240101_120001" "iso"
        stActive db0 "I search the room" []).2.2 =
      .ok { narrative := DMEngine.engine_fallback_narrative,
            metadata := [("error", "model offline")] } :=
  (generation_failure_fallback exExt 0 1 "20240101_120001" "iso" stActive db0 sessA
    "I search the room" [] "model offline" rfl (fun _ => rfl) (fun _ => rfl)).1

/-- C4 (counterexample): with the semantic-store write failing, the error is
not swallowed: process_action propagates it to the caller, the relational
action log receives nothing, and no narrative is returned. -/
theorem c4_counterexample :
    (DMEngine.process_player_action extC4 0 1 "20240101_120002" "iso"
        stActive db0 "open the door" []).2.2 =
      .error (.storeError "vector store down") ∧
    (DMEngine.process_player_action extC4 0 1 "20240101_120002" "iso"
        stActive db0 "open the door" []).2.1.actions = [] := by
  exact ⟨rfl, rfl⟩

/-- C4 (amended): a failure of the semantic-store write in step 5 of
process_action is logged inside add_memory and re-raised; process_action
propagates the exception, so the action is not logged to the relational
store (the database is returned unchanged) and the narrative is not
returned. -/
theorem store_write_failure_propagates (ext : Ext) (t1 t2 : Int) (fmt iso : String)
    (st : DMEngineState) (db : Database) (sess : Session) (action : String) (context : Meta)
    (e : String)
    (hs : st.current_session = some sess)
    (ha : ∀ c, ext.addFail c = some e) :
    (DMEngine.process_player_action ext t1 t2 fmt iso st db action context).2.2 =
      .error (.storeError e) ∧
    (DMEngine.process_player_action ext t1 t2 fmt iso st db action context).2.1 = db := by
  constructor <;>
    simp [DMEngine.process_player_action, hs, VectorStore.add_memory, ha]

/-- Witness for the amended C4 theorem at a concrete failing store. -/
theorem store_write_failure_propagates_witness :
    (DMEngine.process_player_action extC4 0 1 "20240101_120002" "iso"
        stActive db0 "open the door" []).2.1 = db0 :=
  (store_write_failure_propagates extC4 0 1 "20240101_120002" "iso" stActive db0 sessA
    "open the door" [] "vector store down" rfl (fun _ => rfl)).2

/-- C5 (confirmed): the session state machine. process_action with no active
session raises the state error and changes nothing; end_session with no
active session is a no-op; and after end_session the short-term memory is
cleared, the current session is reset, and a subsequent process_action
without a new create_session fails with the state error. -/
theorem session_state_machine (ext : Ext) (t1 t2 : Int) (fmt iso now : String)
    (st : DMEngineState) (db : Database) (action : String) (context : Meta) :
    (st.current_session = none →
      DMEngine.process_player_action ext t1 t2 fmt iso st db action context =
        (st, db, .error (.runtimeError "No active session")) ∧
      DMEngine.end_session now st db = (st, db)) ∧
    (∀ sess, st.current_session = some sess →
      (DMEngine.end_session now st db).1.current_session = none ∧
      (DMEngine.end_session now st db).1.session_memory = [] ∧
      DMEngine.process_player_action ext t1 t2 fmt iso (DMEngine.end_session now st db).1
          (DMEngine.end_session now st db).2 action context =
        ((DMEngine.end_session now st db).1, (DMEngine.end_session now st db).2,
         .error (.runtimeError "No active session"))) := by
  constructor
  · intro h
    constructor
    · simp [DMEngine.process_player_action, h]
    · simp [DMEngine.end_session, h]
  · intro sess h
    refine ⟨?_, ?_, ?_⟩ <;> simp [DMEngine.end_session, h, DMEngine.process_player_action]

/-- Witness for C5, exercising both the no-session branch and the
end-session branch at concrete states. -/
theorem session_state_machine_witness :
    DMEngine.process_player_action exExt 0 1 "f" "i" {} db0 "look around" [] =
      ({}, db0, .error (.runtimeError "No active session")) ∧
    (DMEngine.end_session "2024" stActive db0).1.session_memory = [] := by
  constructor
  · exact ((session_state_machine exExt 0 1 "f" "i" "2024" {} db0 "look around" []).1 rfl).1
  · exact ((session_state_machine exExt 0 1 "f" "i" "2024" stActive db0 "look around" []).2
      sessA rfl).2.1

/-- Witness for C10 on a response that matches a dice pattern but mentions
only a d6: the produced dice_needed list is empty. -/
theorem parse_dice_only_d20_witness :
    (OllamaClient.parse_dm_response "llama3" "Roll a d6 for damage").dice_needed = some [] ∧
    strContains (strLower "Roll a d6 for damage") "d6" = true := by
  constructor
  · rw [(parse_dice_only_d20 "llama3" "Roll a d6 for damage").1,
        (parse_dice_only_d20 "llama3" "Roll a d6 for damage").2.2.2 (by decide)]
  · decide

end LoreForge
